import Mathlib

/-!
Shallow embedding of `src/deploy.py` (the lethallyeasy deployment pipeline).

The Python script is a linear build pipeline: load mod records from a YAML
config, filter to enabled ones, initialize a dated deployment directory,
copy two static template files into it, build a manifest JSON from a
template plus the enabled mods, and zip the directory.

Modelling choices:
- Parsed YAML blocks become association lists `List (String × YVal)`;
  a Python `KeyError` / failed `assert` becomes `Except.error`.
- Version numbers are `Int` (YAML integers); formatting uses `toString`,
  which has no padding, mirroring Python f-string formatting of ints.
- The filesystem state at the single deployment path is `Option FsEntry`
  (`none` = nothing exists there); the template asset directory is a
  lookup function `String → Option String` from filename to contents.
  Stateful functions return the state after the call together with
  `Option String` holding the raised error, so that an aborted call
  exposes the filesystem state at the moment of the raise.
- Writing a file is modelled by returning the written bytes in
  `Except.ok`; an `Except.error` result means nothing was written.
-/

/-- A parsed YAML scalar or nested version mapping, as `deploy.py` sees it
after `yaml.load`: strings, integers, strict booleans, and the
`versionNumber` sub-mapping from keys to integers. -/
inductive YVal where
  | vstr (s : String)
  | vint (n : Int)
  | vbool (b : Bool)
  | vmap (m : List (String × Int))
deriving Repr, DecidableEq

/-- `ModInfo` dataclass of `deploy.py`: name, formatted version string,
enabled flag, and the qualified id `name-version`. -/
structure ModInfo where
  name : String
  version : String
  is_enabled : Bool
  semver_string : String
deriving Repr, DecidableEq

/-- Python `block["key"]` lookup on a parsed mapping: first binding wins. -/
def blockGet (block : List (String × YVal)) (k : String) : Option YVal :=
  (block.find? (fun kv => kv.1 == k)).map (fun kv => kv.2)

/-- Python `version_dict.get(key)` on the version sub-mapping. -/
def dictGet (m : List (String × Int)) (k : String) : Option Int :=
  (m.find? (fun kv => kv.1 == k)).map (fun kv => kv.2)

/-- Python `f"{x}"` of a `dict.get` result: an absent key prints `None`. -/
def fmtOpt : Option Int → String
  | some v => toString v
  | none => "None"

/-- Python `set(keys) == set(target)`: the two key lists contain the same
elements, ignoring order and multiplicity. -/
def keySetEq (ks target : List String) : Bool :=
  ks.all (fun k => target.contains k) && target.all (fun k => ks.contains k)

/-- `ModInfo.format_version`: asserts the version mapping keys are exactly
major, minor, patch, then formats `major.minor.patch` with no padding. -/
def format_version (version_dict : List (String × Int)) : Except String String :=
  if keySetEq (version_dict.map Prod.fst) ["major", "minor", "patch"] then
    Except.ok (fmtOpt (dictGet version_dict "major") ++ "." ++
      fmtOpt (dictGet version_dict "minor") ++ "." ++
      fmtOpt (dictGet version_dict "patch"))
  else
    Except.error "AssertionError: version keys are not exactly major, minor, patch"

/-- `ModInfo.from_dict`: reads `name` (asserting it is a string), the
`versionNumber` sub-mapping (formatting it, which fails unless it is a
mapping with exactly the three version keys), and `enabled` (asserting it
is literally a boolean). Missing keys raise `KeyError`. The lookup and
check order matches the Python source. -/
def from_dict (block : List (String × YVal)) : Except String ModInfo :=
  match blockGet block "name" with
  | none => Except.error "KeyError: name"
  | some nameVal =>
    match nameVal with
    | YVal.vstr name =>
      match blockGet block "versionNumber" with
      | none => Except.error "KeyError: versionNumber"
      | some verVal =>
        match verVal with
        | YVal.vmap version_dict =>
          match format_version version_dict with
          | Except.error e => Except.error e
          | Except.ok version =>
            match blockGet block "enabled" with
            | none => Except.error "KeyError: enabled"
            | some enabledVal =>
              match enabledVal with
              | YVal.vbool is_enabled =>
                Except.ok ⟨name, version, is_enabled, name ++ "-" ++ version⟩
              | _ => Except.error "AssertionError: enabled is not a strict boolean"
        | _ => Except.error "AttributeError: versionNumber is not a mapping"
    | _ => Except.error "AssertionError: name is not a string"

/-- `load_yaml`: parses every block of the config (first failure aborts the
whole load), then filters to the enabled mods, keeping input order. -/
def load_yaml (yaml_data : List (List (String × YVal))) : Except String (List ModInfo) :=
  match yaml_data.mapM from_dict with
  | Except.error e => Except.error e
  | Except.ok mods => Except.ok (mods.filter (fun mod => mod.is_enabled))

/-! Filesystem model for the deployment path. -/

/-- A filesystem entry at the deployment path: a regular file with
contents, or a directory mapping filenames to file contents. -/
inductive FsEntry where
  | file (contents : String)
  | dir (entries : List (String × String))
deriving Repr, DecidableEq

/-- `STATIC_TEMPLATE_FILES` constant of `deploy.py`. -/
def STATIC_TEMPLATE_FILES : List String := ["icon.png", "README.md"]

/-- `DEPLOY_NAME_SLUG` constant of `deploy.py`. -/
def DEPLOY_NAME_SLUG : String := "sivad"

/-- The deployment directory name `{DEPLOY_NAME_SLUG}_{ts_string}` computed
by `init_deployment` from the current date formatted as DD-MM-YY. -/
def deploy_name (ts_string : String) : String :=
  DEPLOY_NAME_SLUG ++ "_" ++ ts_string

/-- Write a file into a directory listing: overwrite in place when the name
exists, append otherwise. -/
def dirInsert : List (String × String) → String → String → List (String × String)
  | [], k, v => [(k, v)]
  | (k1, v1) :: rest, k, v =>
    if k1 = k then (k, v) :: rest else (k1, v1) :: dirInsert rest k v

/-- `shutil.copy(TEMPLATE_DIR / f, deployment_path / f)`: fails when the
template source file is missing or the destination is not a directory,
otherwise writes the file into the deployment directory. Returns the
state after the call and the raised error, when any. -/
def shutil_copy (template : String → Option String) (fname : String)
    (st : Option FsEntry) : Option FsEntry × Option String :=
  match template fname with
  | none => (st, some "FileNotFoundError: template source file is missing")
  | some contents =>
    match st with
    | some (FsEntry.dir entries) =>
      (some (FsEntry.dir (dirInsert entries fname contents)), none)
    | _ => (st, some "NotADirectoryError: deployment path is not a directory")

/-- `copy_template_files`: copies each static template file in order,
aborting at the first failure. -/
def copy_template_files (template : String → Option String)
    (st : Option FsEntry) : Option FsEntry × Option String :=
  STATIC_TEMPLATE_FILES.foldl
    (fun acc static_file =>
      match acc.2 with
      | some e => (acc.1, some e)
      | none => shutil_copy template static_file acc.1)
    (st, none)

/-- The inner `_refresh` of `init_deployment`: raises when the deployment
path is a regular file, leaving it untouched; removes a pre-existing
directory recursively; then creates the directory empty. -/
def refreshPath (st : Option FsEntry) : Option FsEntry × Option String :=
  match st with
  | some (FsEntry.file contents) =>
    (some (FsEntry.file contents),
      some "RuntimeError: deployment path exists and is not a directory, do not want to break something")
  | some (FsEntry.dir _) => (some (FsEntry.dir []), none)
  | none => (some (FsEntry.dir []), none)

/-- `init_deployment` without the date computation: refresh the deployment
path, then copy the static template files into it. Returns the state at
the deployment path after the call and the raised error, when any. -/
def init_deployment (template : String → Option String)
    (st : Option FsEntry) : Option FsEntry × Option String :=
  match refreshPath st with
  | (st1, some e) => (st1, some e)
  | (st1, none) => copy_template_files template st1

/-! Manifest builder. -/

/-- `Manifest` dataclass of `deploy.py`. -/
structure Manifest where
  name : String
  version_number : String
  website_url : String
  description : String
  dependencies : List String
deriving Repr, DecidableEq

/-- The parsed manifest template JSON, with `none` marking an absent key
(Python raises `KeyError` on access). -/
structure TemplateData where
  name : Option String
  version_number : Option String
  website_url : Option String
  description : Option String
  dependencies : Option (List String)
deriving Repr, DecidableEq

/-- One hex digit, lowercase, as CPython json emits. -/
def hexDigit (n : Nat) : Char :=
  if n < 10 then Char.ofNat (48 + n) else Char.ofNat (87 + n)

/-- Four hex digits of a code unit for a `\u` escape. -/
def hex4 (n : Nat) : String :=
  String.mk [hexDigit (n / 4096 % 16), hexDigit (n / 256 % 16),
    hexDigit (n / 16 % 16), hexDigit (n % 16)]

/-- CPython `json.dumps` default (ensure_ascii) escaping of one character. -/
def json_escape_char (c : Char) : String :=
  let n := c.toNat
  if c = '"' then "\\\""
  else if c = '\\' then "\\\\"
  else if c = '\n' then "\\n"
  else if c = '\t' then "\\t"
  else if c = '\r' then "\\r"
  else if n = 8 then "\\b"
  else if n = 12 then "\\f"
  else if n < 32 then "\\u" ++ hex4 n
  else if n < 128 then String.singleton c
  else if n < 65536 then "\\u" ++ hex4 n
  else "\\u" ++ hex4 (55296 + (n - 65536) / 1024) ++
    "\\u" ++ hex4 (56320 + (n - 65536) % 1024)

/-- A JSON string literal, as `json.dumps` renders a Python `str`. -/
def json_str (s : String) : String :=
  "\"" ++ String.join (s.toList.map json_escape_char) ++ "\""

/-- A JSON array of strings with the `json.dumps` default separator. -/
def json_list (xs : List String) : String :=
  "[" ++ String.intercalate ", " (xs.map json_str) ++ "]"

/-- `Manifest.to_json`: `json.dumps` of the manifest dict with fields in
the fixed order name, version_number, website_url, description,
dependencies, using the default separators. -/
def Manifest.to_json (m : Manifest) : String :=
  "\x7b" ++ json_str "name" ++ ": " ++ json_str m.name ++ ", " ++
  json_str "version_number" ++ ": " ++ json_str m.version_number ++ ", " ++
  json_str "website_url" ++ ": " ++ json_str m.website_url ++ ", " ++
  json_str "description" ++ ": " ++ json_str m.description ++ ", " ++
  json_str "dependencies" ++ ": " ++ json_list m.dependencies ++ "\x7d"

/-- `Manifest.with_deps`: a new manifest copying every template field and
replacing dependencies with the mods' qualified ids, in input order. -/
def Manifest.with_deps (m : Manifest) (mods : List ModInfo) : Manifest :=
  ⟨m.name, m.version_number, m.website_url, m.description,
    mods.map (fun mod => mod.semver_string)⟩

/-- `Manifest.from_template_path` on the parsed template data: reads the
five fields in source order (`KeyError` on a missing one), then asserts
the dependencies list is empty. -/
def Manifest.from_template_path (d : TemplateData) : Except String Manifest :=
  match d.name with
  | none => Except.error "KeyError: name"
  | some name =>
    match d.version_number with
    | none => Except.error "KeyError: version_number"
    | some version_number =>
      match d.website_url with
      | none => Except.error "KeyError: website_url"
      | some website_url =>
        match d.description with
        | none => Except.error "KeyError: description"
        | some description =>
          match d.dependencies with
          | none => Except.error "KeyError: dependencies"
          | some dependencies =>
            if dependencies = [] then
              Except.ok ⟨name, version_number, website_url, description, dependencies⟩
            else
              Except.error "AssertionError: template dependencies are not empty"

/-- The manifest built by `write_manifest_json` before serialization: the
template manifest with dependencies replaced. -/
def build_manifest (td : TemplateData) (mods : List ModInfo) : Except String Manifest :=
  match Manifest.from_template_path td with
  | Except.error e => Except.error e
  | Except.ok template_manifest => Except.ok (template_manifest.with_deps mods)

/-- `write_manifest_json`: reads the template, merges dependencies, and
writes the serialized manifest. `Except.ok` carries the bytes written to
`manifest.json`; `Except.error` means the failure happened before any
write. -/
def write_manifest_json (td : TemplateData) (mods : List ModInfo) : Except String String :=
  match build_manifest td mods with
  | Except.error e => Except.error e
  | Except.ok manifest => Except.ok manifest.to_json

/-! Archiver. -/

/-- A filesystem path split as Python `Path`: `parent` directory
components and the final `name` component. -/
structure FPath where
  parent : List String
  name : String
deriving Repr, DecidableEq

/-- The archive produced by `shutil.make_archive`: its path and its
entries (filename, contents). -/
structure ZipArchive where
  path : FPath
  entries : List (String × String)
deriving Repr, DecidableEq

/-- `shutil.make_archive(base_name, format, root_dir)`: creates
`base_name.{format}` holding the flat contents of the root directory. -/
def make_archive (base : FPath) (fmt : String)
    (root_dir_contents : List (String × String)) : ZipArchive :=
  ⟨⟨base.parent, base.name ++ "." ++ fmt⟩, root_dir_contents⟩

/-- `zip_deployment`: archives the deployment directory contents to
`{deploy_dir}.zip` in the deployment directory's parent. -/
def zip_deployment (deploy_dir : FPath) (contents : List (String × String)) : ZipArchive :=
  make_archive ⟨deploy_dir.parent, deploy_dir.name⟩ "zip" contents

/-! Orchestrator. -/

/-- The observable outcome of one successful `deploy_it` run. -/
structure RunResult where
  deploy_dir : FPath
  dir_state : Option FsEntry
  manifest_content : String
  archive : ZipArchive
deriving Repr, DecidableEq

/-- `deploy_it`: the full pipeline. `ts_string` is the current date
formatted DD-MM-YY, `config` the parsed mods config, `td` the parsed
manifest template, `template_files` the static template assets,
`deploy_parent` the `DEPLOY_DIR` components, and `existing` the
filesystem state at the computed deployment path. Any step's failure
aborts the run. -/
def deploy_it (ts_string : String) (config : List (List (String × YVal)))
    (td : TemplateData) (template_files : String → Option String)
    (deploy_parent : List String) (existing : Option FsEntry) :
    Except String RunResult :=
  match load_yaml config with
  | Except.error e => Except.error e
  | Except.ok mods =>
    match init_deployment template_files existing with
    | (_, some e) => Except.error e
    | (st1, none) =>
      match st1 with
      | some (FsEntry.dir entries) =>
        match write_manifest_json td mods with
        | Except.error e => Except.error e
        | Except.ok manifest_content =>
          let entries2 := dirInsert entries "manifest.json" manifest_content
          let deploy_dir : FPath := ⟨deploy_parent, deploy_name ts_string⟩
          Except.ok ⟨deploy_dir, some (FsEntry.dir entries2), manifest_content,
            zip_deployment deploy_dir entries2⟩
      | _ => Except.error "deployment path is not a directory after init"

/-! Concrete data used by witnesses and concrete claims. -/

/-- A three-record config: two enabled mods around a disabled one. -/
def c1_data : List (List (String × YVal)) :=
  [[("name", YVal.vstr "A"),
    ("versionNumber", YVal.vmap [("major", 1), ("minor", 0), ("patch", 0)]),
    ("enabled", YVal.vbool true)],
   [("name", YVal.vstr "B"),
    ("versionNumber", YVal.vmap [("major", 2), ("minor", 1), ("patch", 0)]),
    ("enabled", YVal.vbool false)],
   [("name", YVal.vstr "C"),
    ("versionNumber", YVal.vmap [("major", 3), ("minor", 0), ("patch", 7)]),
    ("enabled", YVal.vbool true)]]

/-- The parse of `c1_data`, record by record. -/
def c1_mods : List ModInfo :=
  [⟨"A", "1.0.0", true, "A-1.0.0"⟩,
   ⟨"B", "2.1.0", false, "B-2.1.0"⟩,
   ⟨"C", "3.0.7", true, "C-3.0.7"⟩]

/-- A template whose dependencies list is non-empty. -/
def c4_td : TemplateData :=
  ⟨some "tname", some "1.0.0", some "https://example.org", some "desc",
    some ["X-1.0.0"]⟩

/-- A template asset directory holding both static files. -/
def c5_template : String → Option String :=
  fun fname =>
    if fname = "icon.png" then some "ICON"
    else if fname = "README.md" then some "DOC"
    else none

/-- A one-record config with one enabled mod. -/
def c9_config : List (List (String × YVal)) :=
  [[("name", YVal.vstr "A"),
    ("versionNumber", YVal.vmap [("major", 1), ("minor", 0), ("patch", 0)]),
    ("enabled", YVal.vbool true)]]

/-- A well-formed manifest template with empty dependencies. -/
def c9_td : TemplateData :=
  ⟨some "pack", some "0.1.0", some "https://example.org", some "demo", some []⟩

/-- A template asset directory holding both static files. -/
def c9_template : String → Option String :=
  fun fname =>
    if fname = "icon.png" then some "ICON"
    else if fname = "README.md" then some "DOC"
    else none

/-- The manifest bytes a run on `c9_config` and `c9_td` writes. -/
def c9_manifest_json : String :=
  "\x7b\"name\": \"pack\", \"version_number\": \"0.1.0\", \"website_url\": \"https://example.org\", \"description\": \"demo\", \"dependencies\": [\"A-1.0.0\"]\x7d"

/-- The deployment directory contents after such a run. -/
def c9_entries : List (String × String) :=
  [("icon.png", "ICON"), ("README.md", "DOC"), ("manifest.json", c9_manifest_json)]

/-- The full outcome of a run on 01-01-25 from those inputs. -/
def c9_r1 : RunResult :=
  ⟨⟨[], "sivad_01-01-25"⟩, some (FsEntry.dir c9_entries), c9_manifest_json,
    ⟨⟨[], "sivad_01-01-25.zip"⟩, c9_entries⟩⟩

/-- A well-formed enabled record. -/
def c10_good : List (String × YVal) :=
  [("name", YVal.vstr "Good"),
   ("versionNumber", YVal.vmap [("major", 1), ("minor", 2), ("patch", 3)]),
   ("enabled", YVal.vbool true)]

/-- A disabled record whose version mapping is missing the patch key. -/
def c10_bad : List (String × YVal) :=
  [("name", YVal.vstr "Bad"),
   ("versionNumber", YVal.vmap [("major", 1), ("minor", 0)]),
   ("enabled", YVal.vbool false)]

/-! Helper lemmas. -/

/-- A successful `format_version` means the key set check passed. -/
theorem format_version_ok_keys (m : List (String × Int)) (s : String)
    (h : format_version m = Except.ok s) :
    keySetEq (m.map Prod.fst) ["major", "minor", "patch"] = true := by
  by_cases hk : keySetEq (m.map Prod.fst) ["major", "minor", "patch"] = true
  · exact hk
  · exfalso
    simp only [Bool.not_eq_true] at hk
    simp [format_version, hk] at h

/-- A successful `from_dict` means every required key was present with the
required shape: name a string, versionNumber a mapping with exactly the
three version keys, enabled a strict boolean. -/
theorem from_dict_ok_inv (block : List (String × YVal)) (mod : ModInfo)
    (h : from_dict block = Except.ok mod) :
    (∃ n, blockGet block "name" = some (YVal.vstr n)) ∧
    (∃ m, blockGet block "versionNumber" = some (YVal.vmap m) ∧
      keySetEq (m.map Prod.fst) ["major", "minor", "patch"] = true) ∧
    (∃ b, blockGet block "enabled" = some (YVal.vbool b)) := by
  unfold from_dict at h
  cases h1 : blockGet block "name" with
  | none => rw [h1] at h; simp at h
  | some nameVal =>
    rw [h1] at h
    cases nameVal with
    | vstr name =>
      simp only [] at h
      cases h2 : blockGet block "versionNumber" with
      | none => rw [h2] at h; simp at h
      | some verVal =>
        rw [h2] at h
        cases verVal with
        | vmap vd =>
          simp only [] at h
          cases h3 : format_version vd with
          | error e => rw [h3] at h; simp at h
          | ok version =>
            rw [h3] at h
            simp only [] at h
            cases h4 : blockGet block "enabled" with
            | none => rw [h4] at h; simp at h
            | some enVal =>
              rw [h4] at h
              cases enVal with
              | vbool b =>
                exact ⟨⟨name, rfl⟩, ⟨vd, rfl, format_version_ok_keys vd version h3⟩,
                  ⟨b, rfl⟩⟩
              | vstr s => simp at h
              | vint n => simp at h
              | vmap m2 => simp at h
        | vstr s => simp at h
        | vint n => simp at h
        | vbool b => simp at h
    | vint n => simp at h
    | vbool b => simp at h
    | vmap m2 => simp at h

/-- A completed `deploy_it` run loaded the config successfully and wrote
exactly the bytes `write_manifest_json` produced for the loaded mods:
the manifest content of a successful run is a function of the config and
the template alone, not of the date or the pre-existing filesystem state
at the deployment path. -/
theorem deploy_it_ok_manifest (ts : String) (config : List (List (String × YVal)))
    (td : TemplateData) (template_files : String → Option String)
    (deploy_parent : List String) (existing : Option FsEntry) (r : RunResult)
    (h : deploy_it ts config td template_files deploy_parent existing = Except.ok r) :
    ∃ mods, load_yaml config = Except.ok mods ∧
      write_manifest_json td mods = Except.ok r.manifest_content := by
  unfold deploy_it at h
  cases hly : load_yaml config with
  | error e => rw [hly] at h; simp at h
  | ok mods =>
    rw [hly] at h
    simp only [] at h
    refine ⟨mods, rfl, ?_⟩
    cases hinit : init_deployment template_files existing with
    | mk st1 err =>
      rw [hinit] at h
      cases err with
      | some e => simp at h
      | none =>
        simp only [] at h
        cases st1 with
        | none => simp at h
        | some entry =>
          cases entry with
          | file c => simp at h
          | dir entries =>
            simp only [] at h
            cases hw : write_manifest_json td mods with
            | error e => rw [hw] at h; simp at h
            | ok manifest_content =>
              rw [hw] at h
              simp only [] at h
              injection h with h5
              rw [← h5]

/-! Claim theorems. -/

/-- C1: for every valid configuration input (every record parses), load_yaml
returns exactly the subset of parsed records whose enabled flag is true,
in source order (`List.filter` keeps exactly the satisfying elements and
preserves order). -/
theorem load_yaml_filters_enabled (yaml_data : List (List (String × YVal)))
    (mods : List ModInfo) (h : yaml_data.mapM from_dict = Except.ok mods) :
    load_yaml yaml_data = Except.ok (mods.filter (fun mod => mod.is_enabled)) := by
  unfold load_yaml
  rw [h]

/-- Witness for C1 on a three-record config with one disabled record. -/
theorem load_yaml_filters_enabled_witness :
    c1_data.mapM from_dict = Except.ok c1_mods ∧
    load_yaml c1_data = Except.ok (c1_mods.filter (fun mod => mod.is_enabled)) :=
  ⟨by rfl, load_yaml_filters_enabled c1_data c1_mods (by rfl)⟩

/-- C2: building the manifest from a template with empty dependencies and a
mod list yields a manifest whose dependencies are the mods' qualified
ids in input order, and every other field copies the template field. -/
theorem build_manifest_replaces_deps
    (name version_number website_url description : String) (mods : List ModInfo) :
    build_manifest ⟨some name, some version_number, some website_url,
        some description, some []⟩ mods =
      Except.ok ⟨name, version_number, website_url, description,
        mods.map (fun mod => mod.semver_string)⟩ := by
  rfl

/-- C3: when the deployment path pre-exists as a regular file,
init_deployment raises and the file is unchanged: the returned state
still holds the same file with the same contents, and the error is set. -/
theorem init_deployment_file_collision (template : String → Option String)
    (contents : String) :
    init_deployment template (some (FsEntry.file contents)) =
      (some (FsEntry.file contents),
        some "RuntimeError: deployment path exists and is not a directory, do not want to break something") := by
  rfl

/-- C4: when the template's dependencies field is a non-empty list,
write_manifest_json fails, and since `Except.ok` is the only path that
carries written bytes, no manifest file is written on this error path. -/
theorem write_manifest_json_nonempty_template_deps (td : TemplateData)
    (mods : List ModInfo) (deps : List String)
    (hd : td.dependencies = some deps) (hne : deps ≠ []) :
    ∃ e, write_manifest_json td mods = Except.error e := by
  obtain ⟨n, vn, url, desc, dd⟩ := td
  have hd2 : dd = some deps := hd
  subst hd2
  unfold write_manifest_json build_manifest Manifest.from_template_path
  cases n <;> cases vn <;> cases url <;> cases desc <;> simp [hne]

/-- Witness for C4 on a template with one stray dependency. -/
theorem write_manifest_json_nonempty_template_deps_witness :
    c4_td.dependencies = some ["X-1.0.0"] ∧ (["X-1.0.0"] : List String) ≠ [] ∧
    ∃ e, write_manifest_json c4_td [] = Except.error e :=
  ⟨rfl, by simp,
    write_manifest_json_nonempty_template_deps c4_td [] ["X-1.0.0"] rfl (by simp)⟩

/-- C5: when the deployment path pre-exists as a directory with arbitrary
stale entries and both static template files exist, init_deployment
succeeds and the resulting directory holds exactly the icon file and the
readme, nothing else. -/
theorem init_deployment_clears_stale_dir (template : String → Option String)
    (stale : List (String × String)) (icon readme : String)
    (h1 : template "icon.png" = some icon)
    (h2 : template "README.md" = some readme) :
    init_deployment template (some (FsEntry.dir stale)) =
      (some (FsEntry.dir [("icon.png", icon), ("README.md", readme)]), none) := by
  simp [init_deployment, refreshPath, copy_template_files, STATIC_TEMPLATE_FILES,
    shutil_copy, h1, h2, dirInsert]

/-- Witness for C5 on a stale directory holding one junk file. -/
theorem init_deployment_clears_stale_dir_witness :
    c5_template "icon.png" = some "ICON" ∧ c5_template "README.md" = some "DOC" ∧
    init_deployment c5_template (some (FsEntry.dir [("stale.txt", "junk")])) =
      (some (FsEntry.dir [("icon.png", "ICON"), ("README.md", "DOC")]), none) :=
  ⟨rfl, rfl,
    init_deployment_clears_stale_dir c5_template [("stale.txt", "junk")]
      "ICON" "DOC" rfl rfl⟩

/-- C6: parsing a record fails (returns an error, never a partial result)
whenever a required key is missing, the version sub-mapping's key set is
not exactly major, minor, patch, or the enabled value is not literally a
boolean. -/
theorem from_dict_invalid_record_errors (block : List (String × YVal))
    (h : blockGet block "name" = none ∨ blockGet block "versionNumber" = none ∨
      blockGet block "enabled" = none ∨
      (∃ m, blockGet block "versionNumber" = some (YVal.vmap m) ∧
        keySetEq (m.map Prod.fst) ["major", "minor", "patch"] = false) ∨
      (∃ v, blockGet block "enabled" = some v ∧ ∀ b, v ≠ YVal.vbool b)) :
    ∃ e, from_dict block = Except.error e := by
  cases hres : from_dict block with
  | error e => exact ⟨e, rfl⟩
  | ok mod =>
    exfalso
    obtain ⟨⟨n, hn⟩, ⟨m, hm, hk⟩, ⟨b, hb⟩⟩ := from_dict_ok_inv block mod hres
    rcases h with h | h | h | ⟨m2, hm2, hk2⟩ | ⟨v, hv, hvb⟩
    · rw [h] at hn; exact Option.noConfusion hn
    · rw [h] at hm; exact Option.noConfusion hm
    · rw [h] at hb; exact Option.noConfusion hb
    · rw [hm] at hm2
      injection hm2 with hm3
      injection hm3 with hm4
      rw [hm4] at hk
      rw [hk] at hk2
      exact Bool.noConfusion hk2
    · rw [hb] at hv
      injection hv with hv2
      exact hvb b hv2.symm

/-- Witness for C6 on the empty record, whose name key is missing. -/
theorem from_dict_invalid_record_errors_witness :
    (blockGet [] "name" = none ∨ blockGet [] "versionNumber" = none ∨
      blockGet [] "enabled" = none ∨
      (∃ m, blockGet [] "versionNumber" = some (YVal.vmap m) ∧
        keySetEq (m.map Prod.fst) ["major", "minor", "patch"] = false) ∨
      (∃ v, blockGet [] "enabled" = some v ∧ ∀ b, v ≠ YVal.vbool b)) ∧
    ∃ e, from_dict [] = Except.error e :=
  ⟨Or.inl rfl, from_dict_invalid_record_errors [] (Or.inl rfl)⟩

/-- C7: the qualified id of every parsed mod is name-major.minor.patch with
no padding (`toString` of the integers); in particular Foo 1.2.3 yields
Foo-1.2.3. -/
theorem semver_string_format :
    (∀ (name : String) (a b c : Int) (en : Bool),
      from_dict [("name", YVal.vstr name),
          ("versionNumber", YVal.vmap [("major", a), ("minor", b), ("patch", c)]),
          ("enabled", YVal.vbool en)] =
        Except.ok ⟨name, toString a ++ "." ++ toString b ++ "." ++ toString c, en,
          name ++ "-" ++ (toString a ++ "." ++ toString b ++ "." ++ toString c)⟩) ∧
    (from_dict [("name", YVal.vstr "Foo"),
        ("versionNumber", YVal.vmap [("major", 1), ("minor", 2), ("patch", 3)]),
        ("enabled", YVal.vbool true)]).map (fun mod => mod.semver_string) =
      Except.ok "Foo-1.2.3" := by
  constructor
  · intro name a b c en
    rfl
  · rfl

/-- C8: the archive produced by zip_deployment sits in the deployment
directory's parent, is named after the deployment directory with a .zip
suffix, and holds the flat contents of the deployment directory. -/
theorem zip_deployment_naming (deploy_dir : FPath)
    (contents : List (String × String)) :
    zip_deployment deploy_dir contents =
      ⟨⟨deploy_dir.parent, deploy_dir.name ++ ".zip"⟩, contents⟩ := by
  unfold zip_deployment make_archive
  rw [String.append_assoc]
  rfl

/-- C9: any two complete pipeline runs with unchanged config, template
data, and static assets write byte-for-byte identical manifest.json,
even when the runs happen on different dates and start from different
pre-existing filesystem states at the deployment path (in particular,
a same-day re-run that starts from the previous run's output
directory): the manifest bytes contain no timestamp and no
run-dependent data. -/
theorem manifest_content_rerun_independent (ts1 ts2 : String)
    (config : List (List (String × YVal))) (td : TemplateData)
    (template_files : String → Option String) (deploy_parent : List String)
    (existing1 existing2 : Option FsEntry) (r1 r2 : RunResult)
    (h1 : deploy_it ts1 config td template_files deploy_parent existing1 = Except.ok r1)
    (h2 : deploy_it ts2 config td template_files deploy_parent existing2 = Except.ok r2) :
    r1.manifest_content = r2.manifest_content := by
  obtain ⟨mods1, hly1, hw1⟩ :=
    deploy_it_ok_manifest ts1 config td template_files deploy_parent existing1 r1 h1
  obtain ⟨mods2, hly2, hw2⟩ :=
    deploy_it_ok_manifest ts2 config td template_files deploy_parent existing2 r2 h2
  rw [hly1] at hly2
  injection hly2 with hm
  rw [← hm] at hw2
  rw [hw1] at hw2
  exact Except.ok.inj hw2

/-- Witness for C9: a first run from an empty deployment path and a
same-day second run starting from the first run's output directory
both complete and write the same manifest bytes. -/
theorem manifest_content_rerun_independent_witness :
    deploy_it "01-01-25" c9_config c9_td c9_template [] none = Except.ok c9_r1 ∧
    deploy_it "01-01-25" c9_config c9_td c9_template []
      (some (FsEntry.dir c9_entries)) = Except.ok c9_r1 ∧
    c9_r1.manifest_content = c9_r1.manifest_content :=
  ⟨rfl, rfl,
    manifest_content_rerun_independent "01-01-25" "01-01-25" c9_config c9_td
      c9_template [] none (some (FsEntry.dir c9_entries)) c9_r1 c9_r1 rfl rfl⟩

/-- C10: load_yaml validates every record before filtering: a config whose
only malformed record is disabled still fails as a whole, while the
well-formed enabled record alone loads fine. -/
theorem load_yaml_validates_disabled_records :
    (∃ e, load_yaml [c10_good, c10_bad] = Except.error e) ∧
    load_yaml [c10_good] = Except.ok [⟨"Good", "1.2.3", true, "Good-1.2.3"⟩] :=
  ⟨⟨"AssertionError: version keys are not exactly major, minor, patch", by rfl⟩,
    by rfl⟩
